import Mathlib

/-
Verification of the resource-cache core of pyBiocFileCache against its
natural-language specification.

This file is a shallow embedding of the current implementation
(src/pybiocfilecache/cache.py together with the helpers it calls in
src/pybiocfilecache/utils.py and the schema in src/pybiocfilecache/models.py).
The embedding choices are:

* The filesystem is a finite list of entries (path, content, deletable).
  `content : Nat` is an abstract byte string; the hash collaborator
  (`calculate_file_hash`, an external primitive per spec section 6) is
  modelled as returning the content itself.  `deletable : Bool` models
  whether an `unlink` of the entry succeeds: `Path.unlink` can raise
  (e.g. `PermissionError`) and the source wraps every unlink in
  `try/except`, so this failure mode is part of the code's own model.
* Wall-clock values (`datetime.now()`), generated uuids
  (`uuid.uuid4().hex`) and the success of the metadata-store commit that
  inserts a new row (the store is an external transactional collaborator
  per spec section 2, whose `commit` can fail) are passed as explicit
  parameters (`now`, `uuid`, `insertOk`).
* Each Python method becomes a pure function from (arguments, state,
  filesystem) to (an `Except` result, the committed state, the final
  filesystem).  The state and filesystem are returned even on the error
  path because the source commits some mutations before raising.
* Python exceptions are modelled by the inductive `CacheErr`; each
  constructor corresponds to one raise site, and `raise ... from e`
  chaining is modelled by constructors carrying a cause.
* `get`'s 30-second existence poll (sleep 0.1 loop) is modelled against a
  filesystem that does not change during the call: the file either exists
  (immediate success) or never appears (the timeout elapses).
-/

namespace BiocFileCache

/-- One file on disk: its path, abstract content, and whether an
`unlink` of it succeeds (models OS-level unlink failures such as
`PermissionError`, which the source guards with `try/except`). -/
structure FileEntry where
  path : String
  content : Nat
  deletable : Bool
deriving Repr, DecidableEq

/-- The filesystem: a list of file entries with pairwise distinct paths. -/
abbrev FS := List FileEntry

def fsLookup (fs : FS) (p : String) : Option FileEntry :=
  fs.find? (fun e => e.path = p)

/-- Embedding of `Path(p).exists()`. -/
def fsExists (fs : FS) (p : String) : Bool :=
  (fsLookup fs p).isSome

def fsErase (fs : FS) (p : String) : FS :=
  fs.filter (fun e => e.path ≠ p)

/-- Writing `content` to `p` (creating or overwriting the file). -/
def fsWrite (fs : FS) (p : String) (c : Nat) : FS :=
  fsErase fs p ++ [⟨p, c, true⟩]

/-- Errors, one constructor per raise site of the source.  `raise ... from e`
chaining is modelled by constructors carrying the causing error. -/
inductive CacheErr where
  /-- `get`: `ValueError("either 'rname' or 'rid' must be provided.")`. -/
  | valueError
  /-- `add`: `FileExistsError(f"Resource '{rname}' already exists")`. -/
  | resourceExists (rname : String)
  /-- `get`: `TimeoutError(f"For resource: '{rname}' the rpath does not exist after {timeout} seconds.")`.
  Carries the `rname` argument of `get` (which is `None` when the caller
  looked the row up by `rid`) and the timeout in seconds. -/
  | pathTimeout (rname : Option String) (timeout : Nat)
  /-- `utils.copy_or_move`: `Exception(f"Failed to store resource '{rname}' from '{source}' to '{target}'")`. -/
  | storageFailed (rname source target : String)
  /-- `utils.copy_or_move`: `ValueError(f"Invalid action: {action}")`. -/
  | invalidAction (action : String)
  /-- opening a missing file (`FileNotFoundError`), raised by
  `calculate_file_hash` / `Path.unlink` / `update`'s explicit check. -/
  | fileNotFound (p : String)
  /-- an OS-level `unlink` failure on an existing file (e.g. `PermissionError`). -/
  | permissionDenied (p : String)
  /-- a failed commit of the metadata store while inserting a row
  (the store is an external transactional collaborator). -/
  | dbError
  /-- `add`: `Exception("Failed to add resource") from e`. -/
  | addFailed (cause : CacheErr)
  /-- `update`: `Exception("Failed to update resource") from e`. -/
  | updateFailed (cause : CacheErr)
  /-- `remove`: `Exception(f"Failed to remove resource '{rname}'") from e`. -/
  | removeFailed (rname : String) (cause : CacheErr)
  /-- `purge`: `Exception(f"Failed to remove file for resource '{resource.rname}'") from e`. -/
  | purgeFileFailed (rname : String) (cause : CacheErr)
  /-- `purge`: `Exception("Failed to purge cache") from e`. -/
  | purgeFailed (cause : CacheErr)
  /-- `add` with `rtype="web"`: `download_web_file` has no return statement,
  so `outpath` is `None` and `outpath.name` raises `AttributeError`. -/
  | attributeError
  /-- `add_metadata`: `Exception(f"'key'={key} already exists in metadata.")`,
  raised on the branch where the key is NOT present (the message text in the
  source is inaccurate about its own condition). -/
  | metadataKeyAbsent (key : String)
  /-- an `IntegrityError` from committing an INSERT that violates the
  `metadata.key` primary-key uniqueness constraint (models.py line 16). -/
  | uniqueViolation (key : String)
deriving Repr, DecidableEq

/-- One row of the `resource` table (models.py lines 26-94).  Timestamps are
abstract `Nat` clock values. -/
structure Resource where
  id : Nat
  rid : String
  rname : String
  rpath : String
  rtype : String
  fpath : String
  etag : Option Nat
  create_time : Nat
  access_time : Nat
  last_modified_time : Option Nat
  expires : Option Nat
deriving Repr, DecidableEq

/-- The committed contents of the metadata store plus the in-object
`_last_cleanup` timestamp of the `BiocFileCache` instance. -/
structure CacheState where
  resources : List Resource
  metadata : List (String × String)
  last_cleanup : Nat
deriving Repr, DecidableEq

/-- Construction-time configuration (config.py).  `rname_pattern` is fixed to
its default and embedded by `validate_rname` below; `hash_algorithm` is
abstracted away (the hash of a file is its abstract content). -/
structure CacheConfig where
  cache_dir : String
  cleanup_interval : Option Nat
deriving Repr, DecidableEq

/-- Character class of the default pattern `^[a-zA-Z0-9_-]+$`. -/
def isRnameChar (c : Char) : Bool :=
  c.isAlphanum || c = '_' || c = '-'

/-- Embedding of `utils.validate_rname(rname, pattern)` at the default
pattern `^[a-zA-Z0-9_-]+$` (config.py line 40): `re.match` of that anchored
pattern succeeds iff the string is nonempty and all characters are in the
class. -/
def validate_rname (rname : String) : Bool :=
  rname.length > 0 && rname.data.all isRnameChar

/-- Embedding of `utils.generate_id(size)`: `size += 1; return "BFC" + str(size)`. -/
def generate_id (size : Nat) : String :=
  "BFC" ++ toString (size + 1)

def fileNameAux : List Char → List Char → List Char
  | [], cur => cur.reverse
  | c :: rest, cur => if c = '/' then fileNameAux rest [] else fileNameAux rest (c :: cur)

/-- Embedding of `Path(p).name`: the component after the last slash. -/
def fileName (p : String) : String :=
  ⟨fileNameAux p.data []⟩

/-- Embedding of `utils.calculate_file_hash(path, algorithm)`: the digest of
the file's content, abstracted to the content itself; opening a missing file
raises `FileNotFoundError`. -/
def calculate_file_hash (fs : FS) (p : String) : Except CacheErr Nat :=
  match fsLookup fs p with
  | none => .error (.fileNotFound p)
  | some e => .ok e.content

/-- Embedding of `Path(p).unlink()` (missing_ok=False). -/
def unlink (fs : FS) (p : String) : Except CacheErr FS :=
  match fsLookup fs p with
  | none => .error (.fileNotFound p)
  | some e => if e.deletable then .ok (fsErase fs p) else .error (.permissionDenied p)

/-- Embedding of `Path(p).unlink(missing_ok=True)`. -/
def unlinkMissingOk (fs : FS) (p : String) : Except CacheErr FS :=
  match fsLookup fs p with
  | none => .ok fs
  | some e => if e.deletable then .ok (fsErase fs p) else .error (.permissionDenied p)

/-- Embedding of `utils.copy_or_move(source, target, rname, action, compress=False)`
(utils.py lines 66-88).  `copy2`/`move` fail iff the source file is missing;
their failure is wrapped in the "Failed to store resource" exception;
`action="asis"` is a no-op; an unknown action raises `ValueError` before the
`try` block, so it is not wrapped. -/
def copy_or_move (fs : FS) (source target rname action : String) : Except CacheErr FS :=
  if action ≠ "copy" && action ≠ "move" && action ≠ "asis" then
    .error (.invalidAction action)
  else if action = "copy" then
    match fsLookup fs source with
    | none => .error (.storageFailed rname source target)
    | some e => .ok (fsWrite fs target e.content)
  else if action = "move" then
    match fsLookup fs source with
    | none => .error (.storageFailed rname source target)
    | some e => .ok (fsWrite (fsErase fs source) target e.content)
  else
    .ok fs

def findByRname (s : CacheState) (n : String) : Option Resource :=
  s.resources.find? (fun r => r.rname = n)

def findByRid (s : CacheState) (i : String) : Option Resource :=
  s.resources.find? (fun r => r.rid = i)

/-- The row `get` operates on: by `rname` when given, else by `rid`
(cache.py lines 209-212). -/
def getLookup (s : CacheState) (rname? rid? : Option String) : Option Resource :=
  match rname? with
  | some n => findByRname s n
  | none =>
    match rid? with
    | some i => findByRid s i
    | none => none

/-- ORM in-place mutation: replace the row with primary key `i`. -/
def setAccessTime (rs : List Resource) (i : Nat) (t : Nat) : List Resource :=
  rs.map (fun r => if r.id = i then { r with access_time := t } else r)

/-- Embedding of `BiocFileCache.get` (cache.py lines 194-230).  With neither
argument it raises `ValueError`; with no matching row it returns `None`; with
a matching row it polls for `rpath` to exist for up to 30 seconds (the
filesystem is constant during the call, so the file either exists now or the
timeout elapses), then commits a refreshed `access_time` and returns the
(detached) row. -/
def get (rname? rid? : Option String) (now : Nat) (s : CacheState) (fs : FS) :
    Except CacheErr (Option Resource) × CacheState :=
  if rname?.isNone && rid?.isNone then
    (.error .valueError, s)
  else
    match getLookup s rname? rid? with
    | none => (.ok none, s)
    | some r =>
      if fsExists fs r.rpath then
        (.ok (some { r with access_time := now }),
         { s with resources := setAccessTime s.resources r.id now })
      else
        (.error (.pathTimeout rname? 30), s)

/-- sqlite assigns a fresh INTEGER PRIMARY KEY as max existing id + 1. -/
def maxId (rs : List Resource) : Nat :=
  rs.foldl (fun a r => max a r.id) 0

/-- The cache path computed by `add` (cache.py line 294, with the default
`ext=True`): `cache_dir / f"{uuid}_{outpath.name}"` unless the action is
`asis`, in which case the original `fpath`. -/
def addRpath (cfg : CacheConfig) (fpath action uuid : String) : String :=
  if action = "asis" then fpath else cfg.cache_dir ++ "/" ++ uuid ++ "_" ++ fileName fpath

/-- Embedding of `BiocFileCache.add` (cache.py lines 232-323), with the
defaults `download=True`, `ext=True`.

Line-by-line correspondence: the `self._validate_rname(rname)` call on
line 275 is commented out in the source, so no name validation happens here.
Line 278: duplicate check via `self.get(rname)` (which itself commits a
refreshed `access_time` on the existing row before `add` raises).  Lines
281-283: for `rtype="web"`, `download_web_file` has no return statement, so
`outpath` is `None` and `outpath.name` on line 294 raises `AttributeError`.
Lines 287-289: `action="asis"` forces `rtype="local"`.  Line 292:
`rid = generate_id(size=len(self))`.  Lines 307-309: the row is inserted and
committed BEFORE any file movement (`insertOk` models whether this commit of
the external store succeeds).  Line 312: `copy_or_move`; lines 314-316: etag
from the stored file; lines 320-323: on failure the just-inserted row is
deleted and committed, then `Exception("Failed to add resource")` is raised. -/
def add (cfg : CacheConfig) (rname fpath rtype action : String) (expires : Option Nat)
    (now : Nat) (uuid : String) (insertOk : Bool) (s : CacheState) (fs : FS) :
    Except CacheErr Resource × CacheState × FS :=
  match get (some rname) none now s fs with
  | (.error e, s1) => (.error e, s1, fs)
  | (.ok (some _), s1) => (.error (.resourceExists rname), s1, fs)
  | (.ok none, s1) =>
    if rtype = "web" then
      (.error .attributeError, s1, fs)
    else
      let rtype1 := if action = "asis" then "local" else rtype
      let rid := generate_id s1.resources.length
      let rpath := addRpath cfg fpath action uuid
      let resource : Resource :=
        { id := maxId s1.resources + 1, rid := rid, rname := rname, rpath := rpath,
          rtype := rtype1, fpath := fpath, etag := none, create_time := now,
          access_time := now, last_modified_time := none, expires := expires }
      if !insertOk then
        (.error .dbError, s1, fs)
      else
        match copy_or_move fs fpath rpath rname action with
        | .error e => (.error (.addFailed e), s1, fs)
        | .ok fs2 =>
          match calculate_file_hash fs2 rpath with
          | .error e => (.error (.addFailed e), s1, fs2)
          | .ok h =>
            let resource2 := { resource with etag := some h }
            (.ok resource2, { s1 with resources := s1.resources ++ [resource2] }, fs2)

/-- ORM in-place mutation: replace the row with primary key `i` by `r'`. -/
def replaceById (rs : List Resource) (i : Nat) (r' : Resource) : List Resource :=
  rs.map (fun r => if r.id = i then r' else r)

/-- Embedding of `BiocFileCache.update` (cache.py lines 344-389).  A missing
`fpath` raises `FileNotFoundError` up front; a missing row delegates to `add`
(with `add`'s default `rtype="relative"` and `expires=None`); otherwise the
new content is copied/moved over the existing `rpath`, `last_modified_time`
and `etag` are refreshed and committed; on failure the transaction is rolled
back and `Exception("Failed to update resource")` raised. -/
def update (cfg : CacheConfig) (rname fpath action : String)
    (now : Nat) (uuid : String) (insertOk : Bool) (s : CacheState) (fs : FS) :
    Except CacheErr Resource × CacheState × FS :=
  if !fsExists fs fpath then
    (.error (.fileNotFound fpath), s, fs)
  else
    match findByRname s rname with
    | none => add cfg rname fpath "relative" action none now uuid insertOk s fs
    | some r =>
      match copy_or_move fs fpath r.rpath rname action with
      | .error e => (.error (.updateFailed e), s, fs)
      | .ok fs2 =>
        match calculate_file_hash fs2 r.rpath with
        | .error e => (.error (.updateFailed e), s, fs2)
        | .ok h =>
          let r' := { r with last_modified_time := some now, etag := some h }
          (.ok r', { s with resources := replaceById s.resources r.id r' }, fs2)

/-- Embedding of `BiocFileCache.remove` (cache.py lines 391-419).  A missing
row is a no-op.  Otherwise the file at `rpath` is unlinked first (only when
it exists), then the row is deleted and committed; if the unlink raises, the
transaction is rolled back (nothing was pending) and the failure is wrapped
in `Exception(f"Failed to remove resource '{rname}'")`. -/
def remove (rname : String) (s : CacheState) (fs : FS) :
    Except CacheErr Unit × CacheState × FS :=
  match findByRname s rname with
  | none => (.ok (), s, fs)
  | some r =>
    if fsExists fs r.rpath then
      match unlink fs r.rpath with
      | .error e => (.error (.removeFailed rname e), s, fs)
      | .ok fs2 =>
        (.ok (), { s with resources := s.resources.filter (fun x => x.id ≠ r.id) }, fs2)
    else
      (.ok (), { s with resources := s.resources.filter (fun x => x.id ≠ r.id) }, fs)

/-- Embedding of `BiocFileCache._should_cleanup` (cache.py lines 145-154). -/
def _should_cleanup (cfg : CacheConfig) (now : Nat) (s : CacheState) : Bool :=
  match cfg.cleanup_interval with
  | none => false
  | some i => now - s.last_cleanup > i

/-- Python truthiness of `self.config.cleanup_interval` (a `timedelta` is
truthy iff nonzero, `None` is falsy), as used by `any([...])` on
cache.py line 166. -/
def intervalTruthy (cfg : CacheConfig) : Bool :=
  match cfg.cleanup_interval with
  | none => false
  | some i => i ≠ 0

/-- One row is expired iff its `expires` is non-null and strictly before now
(cache.py lines 172-178). -/
def isExpired (now : Nat) (r : Resource) : Bool :=
  match r.expires with
  | none => false
  | some e => e < now

/-- The per-resource loop body of `cleanup` (cache.py lines 181-187): unlink
with `missing_ok=True`, then delete the row and count; an exception is logged
and the row survives. -/
def cleanupLoop (expired : List Resource) (removed : Nat) (rs : List Resource) (fs : FS) :
    Nat × List Resource × FS :=
  match expired with
  | [] => (removed, rs, fs)
  | r :: rest =>
    match unlinkMissingOk fs r.rpath with
    | .error _ => cleanupLoop rest removed rs fs
    | .ok fs2 => cleanupLoop rest (removed + 1) (rs.filter (fun x => x.id ≠ r.id)) fs2

/-- Embedding of `BiocFileCache.cleanup` (cache.py lines 156-192).  Line 166:
`if not any([self.config.cleanup_interval, self._should_cleanup()]): return 0`
— when `cleanup_interval` is `None` this guard makes even an explicit call
return 0 without touching anything.  Otherwise every row whose `expires` is
non-null and strictly before `now` has its file unlinked (missing_ok) and its
row deleted, per-row failures being logged and skipped; finally
`_last_cleanup` is advanced.  Returns the number of rows removed. -/
def cleanup (cfg : CacheConfig) (now : Nat) (s : CacheState) (fs : FS) :
    Nat × CacheState × FS :=
  if !(intervalTruthy cfg || _should_cleanup cfg now s) then
    (0, s, fs)
  else
    let expired := s.resources.filter (isExpired now)
    let out := cleanupLoop expired 0 s.resources fs
    (out.1, { s with resources := out.2.1, last_cleanup := now }, out.2.2)

/-- The non-force file-deletion loop of `purge` (cache.py lines 591-597):
unlink each resource's file (missing_ok); the first failure aborts, carrying
the failing resource's name, the cause, and the partially-unlinked
filesystem. -/
def purgeUnlinkAll (rs : List Resource) (fs : FS) :
    Except (String × CacheErr × FS) FS :=
  match rs with
  | [] => .ok fs
  | r :: rest =>
    match unlinkMissingOk fs r.rpath with
    | .error e => .error (r.rname, e, fs)
    | .ok fs2 => purgeUnlinkAll rest fs2

/-- The force-mode file-deletion loop of `purge` (cache.py lines 591-598):
failures are logged and skipped. -/
def purgeUnlinkForce (rs : List Resource) (fs : FS) : FS :=
  match rs with
  | [] => fs
  | r :: rest =>
    match unlinkMissingOk fs r.rpath with
    | .error _ => purgeUnlinkForce rest fs
    | .ok fs2 => purgeUnlinkForce rest fs2

/-- Whether `p` is a direct child of the cache directory, i.e. an entry of
`self.config.cache_dir.iterdir()`. -/
def isChildOfDir (dir p : String) : Bool :=
  let d := dir.data ++ ['/']
  d.isPrefixOf p.data && !((p.data.drop d.length).contains '/')

/-- The force-mode directory sweep of `purge` (cache.py lines 602-611):
delete every direct child of the cache directory except the sqlite file,
skipping files whose deletion fails. -/
def sweepCacheDir (cfg : CacheConfig) (fs : FS) : FS :=
  fs.filter (fun e =>
    !(isChildOfDir cfg.cache_dir e.path && fileName e.path ≠ "BiocFileCache.sqlite"
      && e.deletable))

/-- Embedding of `BiocFileCache.purge` (cache.py lines 572-631).  All rows
are marked deleted in the pending transaction, then each backing file is
unlinked (missing_ok).  Non-force: the first unlink failure rolls the
transaction back (restoring every row; files already unlinked stay gone) and
raises `Exception("Failed to purge cache")` chained from
`Exception(f"Failed to remove file for resource '{rname}'")`.  Otherwise the
transaction commits (zero rows remain), force mode additionally sweeps the
cache directory, and `_last_cleanup` is advanced. -/
def purge (cfg : CacheConfig) (force : Bool) (now : Nat) (s : CacheState) (fs : FS) :
    Except CacheErr Bool × CacheState × FS :=
  if force then
    let fs1 := purgeUnlinkForce s.resources fs
    let fs2 := sweepCacheDir cfg fs1
    (.ok true, { s with resources := [], last_cleanup := now }, fs2)
  else
    match purgeUnlinkAll s.resources fs with
    | .error (rn, e, fsPart) =>
      (.error (.purgeFailed (.purgeFileFailed rn e)), s, fsPart)
    | .ok fs1 =>
      (.ok true, { s with resources := [], last_cleanup := now }, fs1)

/-- Embedding of `BiocFileCache.check_metadata_key` (cache.py lines 637-648). -/
def check_metadata_key (s : CacheState) (key : String) : Bool :=
  (s.metadata.find? (fun kv => kv.1 = key)).isSome

/-- The INSERT attempted by `add_metadata`'s session (`session.add(meta);
session.commit()`): committing a row whose key already exists violates the
primary-key uniqueness constraint on `metadata.key` (models.py line 16) and
raises `IntegrityError`, which `get_session` rolls back and re-raises. -/
def insertMetadata (s : CacheState) (key value : String) : Except CacheErr CacheState :=
  if check_metadata_key s key then
    .error (.uniqueViolation key)
  else
    .ok { s with metadata := s.metadata ++ [(key, value)] }

/-- Embedding of `BiocFileCache.add_metadata` (cache.py lines 650-663).  The
branches are inverted relative to the docstring: when the key EXISTS an
insertion is attempted (and fails on the uniqueness constraint); when the key
is absent the explicit exception is raised. -/
def add_metadata (s : CacheState) (key value : String) : Except CacheErr CacheState :=
  if check_metadata_key s key then
    insertMetadata s key value
  else
    .error (.metadataKeyAbsent key)

def isOkb : Except ε α → Bool
  | .ok _ => true
  | .error _ => false

deriving instance DecidableEq for Except

/-
Concrete cache states and filesystems used by the counterexamples and
witnesses below.
-/

def cfgC : CacheConfig := ⟨"/cache", none⟩

/-- A freshly initialized cache: no rows, only the schema_version key. -/
def s0C : CacheState := ⟨[], [("schema_version", "0.99.4")], 0⟩

/-- An original file of the caller, outside the cache directory. -/
def fsAsis : FS := [⟨"/data/orig.txt", 7, true⟩]

def rExpired : Resource :=
  { id := 1, rid := "BFC1", rname := "a", rpath := "/cache/u_a.txt", rtype := "local",
    fpath := "/src/a.txt", etag := some 1, create_time := 1, access_time := 1,
    last_modified_time := none, expires := some 3 }

/-- A cache holding one row that is expired at time 10. -/
def sExpired : CacheState := ⟨[rExpired], [("schema_version", "0.99.4")], 0⟩

def fsExpired : FS := [⟨"/cache/u_a.txt", 1, true⟩]

/-- A source file for `add`. -/
def fsSource : FS := [⟨"/src/file.txt", 5, true⟩]

def fsThreeSources : FS :=
  [⟨"/src/a.txt", 1, true⟩, ⟨"/src/b.txt", 2, true⟩, ⟨"/src/c.txt", 3, true⟩]

/-- Step 1 of the rid-collision run: `add("a", "/src/a.txt")` on an empty cache. -/
def c4AfterAddA := add cfgC "a" "/src/a.txt" "local" "copy" none 1 "u1" true s0C fsThreeSources

/-- Step 2: `add("b", "/src/b.txt")`. -/
def c4AfterAddB := add cfgC "b" "/src/b.txt" "local" "copy" none 2 "u2" true c4AfterAddA.2.1 c4AfterAddA.2.2

/-- Step 3: `remove("a")`. -/
def c4AfterRemoveA := remove "a" c4AfterAddB.2.1 c4AfterAddB.2.2

/-- Step 4: `add("c", "/src/c.txt")`. -/
def c4AfterAddC := add cfgC "c" "/src/c.txt" "local" "copy" none 3 "u3" true c4AfterRemoveA.2.1 c4AfterRemoveA.2.2

def rDup : Resource :=
  { id := 1, rid := "BFC1", rname := "a", rpath := "/cache/p", rtype := "local",
    fpath := "/s/a", etag := some 1, create_time := 0, access_time := 0,
    last_modified_time := none, expires := none }

/-- A cache holding one live row named "a" whose backing file exists. -/
def sDup : CacheState := ⟨[rDup], [("schema_version", "0.99.4")], 0⟩

def fsDup : FS := [⟨"/cache/p", 1, true⟩]

def rPg1 : Resource :=
  { id := 1, rid := "BFC1", rname := "pa", rpath := "/cache/f1", rtype := "local",
    fpath := "/s/1", etag := some 1, create_time := 0, access_time := 0,
    last_modified_time := none, expires := none }

def rPg2 : Resource :=
  { id := 2, rid := "BFC2", rname := "pb", rpath := "/cache/f2", rtype := "local",
    fpath := "/s/2", etag := some 2, create_time := 0, access_time := 0,
    last_modified_time := none, expires := none }

/-- A cache with two rows; the first backing file is deletable, the second is
not (its `unlink` fails at the OS level). -/
def sPurge : CacheState := ⟨[rPg1, rPg2], [("schema_version", "0.99.4")], 0⟩

def fsPurge : FS := [⟨"/cache/f1", 1, true⟩, ⟨"/cache/f2", 2, false⟩]

/-- The same two rows with both backing files deletable. -/
def fsPurgeOk : FS := [⟨"/cache/f1", 1, true⟩, ⟨"/cache/f2", 2, true⟩]

def rGet : Resource :=
  { id := 4, rid := "BFC4", rname := "g", rpath := "/cache/g.txt", rtype := "local",
    fpath := "/s/g.txt", etag := some 9, create_time := 2, access_time := 2,
    last_modified_time := none, expires := none }

def sGet : CacheState := ⟨[rGet], [("schema_version", "0.99.4")], 0⟩

def fsGet : FS := [⟨"/cache/g.txt", 9, true⟩]

/-- A metadata table that already holds the key "k". -/
def sMeta : CacheState := ⟨[], [("schema_version", "0.99.4"), ("k", "v")], 0⟩

def rAsis : Resource :=
  { id := 1, rid := "BFC1", rname := "a", rpath := "/data/orig.txt", rtype := "local",
    fpath := "/data/orig.txt", etag := some 7, create_time := 1, access_time := 1,
    last_modified_time := none, expires := none }

/-- A cache holding one row registered "as-is": its rpath is the caller's
original file outside the cache directory. -/
def sAsis : CacheState := ⟨[rAsis], [("schema_version", "0.99.4")], 0⟩

/-
Helper lemmas about the filesystem primitives and the purge loop.
-/

theorem fsLookup_eq_none_iff (fs : FS) (p : String) :
    fsLookup fs p = none ↔ ∀ e ∈ fs, e.path ≠ p := by
  simp [fsLookup, List.find?_eq_none]

theorem fsExists_false_iff (fs : FS) (p : String) :
    fsExists fs p = false ↔ ∀ e ∈ fs, e.path ≠ p := by
  rw [← fsLookup_eq_none_iff]
  unfold fsExists
  cases fsLookup fs p <;> simp

theorem mem_fsErase {e : FileEntry} {fs : FS} {p : String} :
    e ∈ fsErase fs p ↔ e ∈ fs ∧ e.path ≠ p := by
  simp [fsErase, List.mem_filter]

theorem fsExists_fsErase_self (fs : FS) (p : String) :
    fsExists (fsErase fs p) p = false := by
  rw [fsExists_false_iff]
  intro e he
  exact (mem_fsErase.1 he).2

theorem fsExists_false_mono {fs1 fs2 : FS} {p : String}
    (h1 : fsExists fs1 p = false) (hsub : ∀ e ∈ fs2, e ∈ fs1) :
    fsExists fs2 p = false := by
  rw [fsExists_false_iff] at h1 ⊢
  intro e he
  exact h1 e (hsub e he)

theorem unlinkMissingOk_ok_subset {fs fs' : FS} {p : String}
    (h : unlinkMissingOk fs p = .ok fs') : ∀ e ∈ fs', e ∈ fs := by
  cases hl : fsLookup fs p with
  | none =>
    simp only [unlinkMissingOk, hl] at h
    cases h
    exact fun e he => he
  | some a =>
    simp only [unlinkMissingOk, hl] at h
    by_cases hd : a.deletable = true
    · rw [if_pos hd] at h
      cases h
      exact fun e he => (mem_fsErase.1 he).1
    · rw [if_neg hd] at h
      cases h

theorem unlinkMissingOk_ok_not_exists {fs fs' : FS} {p : String}
    (h : unlinkMissingOk fs p = .ok fs') : fsExists fs' p = false := by
  cases hl : fsLookup fs p with
  | none =>
    simp only [unlinkMissingOk, hl] at h
    cases h
    simp [fsExists, hl]
  | some a =>
    simp only [unlinkMissingOk, hl] at h
    by_cases hd : a.deletable = true
    · rw [if_pos hd] at h
      cases h
      exact fsExists_fsErase_self fs p
    · rw [if_neg hd] at h
      cases h

theorem purgeUnlinkAll_ok_subset :
    ∀ (rs : List Resource) (fs fs' : FS),
      purgeUnlinkAll rs fs = .ok fs' → ∀ e ∈ fs', e ∈ fs := by
  intro rs
  induction rs with
  | nil =>
    intro fs fs' h
    cases h
    exact fun e he => he
  | cons r rest ih =>
    intro fs fs' h
    unfold purgeUnlinkAll at h
    cases hu : unlinkMissingOk fs r.rpath with
    | error e =>
      rw [hu] at h
      cases h
    | ok fs2 =>
      rw [hu] at h
      intro e he
      exact unlinkMissingOk_ok_subset hu e (ih fs2 fs' h e he)

theorem purgeUnlinkAll_ok_removed :
    ∀ (rs : List Resource) (fs fs' : FS),
      purgeUnlinkAll rs fs = .ok fs' → ∀ r ∈ rs, fsExists fs' r.rpath = false := by
  intro rs
  induction rs with
  | nil =>
    intro fs fs' _ r hr
    cases hr
  | cons q rest ih =>
    intro fs fs' h r hr
    unfold purgeUnlinkAll at h
    cases hu : unlinkMissingOk fs q.rpath with
    | error e =>
      rw [hu] at h
      cases h
    | ok fs2 =>
      rw [hu] at h
      rcases List.mem_cons.1 hr with hq | hrest
      · subst hq
        exact fsExists_false_mono (unlinkMissingOk_ok_not_exists hu)
          (purgeUnlinkAll_ok_subset rest fs2 fs' h)
      · exact ih fs2 fs' h r hrest

theorem purgeUnlinkAll_error_subset :
    ∀ (rs : List Resource) (fs : FS) (rn : String) (e : CacheErr) (fsPart : FS),
      purgeUnlinkAll rs fs = .error (rn, e, fsPart) → ∀ x ∈ fsPart, x ∈ fs := by
  intro rs
  induction rs with
  | nil =>
    intro fs rn e fsPart h
    cases h
  | cons q rest ih =>
    intro fs rn e fsPart h
    unfold purgeUnlinkAll at h
    cases hu : unlinkMissingOk fs q.rpath with
    | error e' =>
      rw [hu] at h
      cases h
      exact fun x hx => hx
    | ok fs2 =>
      rw [hu] at h
      intro x hx
      exact unlinkMissingOk_ok_subset hu x (ih fs2 rn e fsPart h x hx)

/-- When no row carries the requested name, `get` by name finds nothing,
changes nothing and raises nothing. -/
theorem get_fresh (n : String) (now : Nat) (s : CacheState) (fs : FS)
    (h : findByRname s n = none) : get (some n) none now s fs = (.ok none, s) := by
  simp [BiocFileCache.get, BiocFileCache.getLookup, h]

/-
Claim theorems.
-/

/-- C1, counterexample: adding a resource with action "asis" (so its rpath is
the caller's original path /data/orig.txt) and then removing it deletes the
caller's original file.  This refutes the claim that no cache operation ever
deletes the file at an as-is rpath: remove (cache.py lines 403-419) unlinks
`resource.rpath` without checking how the row was added. -/
theorem c1_remove_deletes_asis_original :
    fsExists fsAsis "/data/orig.txt" = true ∧
    isOkb (add cfgC "a" "/data/orig.txt" "local" "asis" none 1 "u1" true s0C fsAsis).1 = true ∧
    fsExists
      (remove "a"
        (add cfgC "a" "/data/orig.txt" "local" "asis" none 1 "u1" true s0C fsAsis).2.1
        (add cfgC "a" "/data/orig.txt" "local" "asis" none 1 "u1" true s0C fsAsis).2.2).2.2
      "/data/orig.txt" = false := by decide

/-- C1, amended: remove unlinks the file at the found row's rpath whatever
action the row was added with — as-is rows are not special-cased, so removing
an as-is row deletes the caller's original file whenever that file exists and
the OS permits the unlink (cleanup and purge unlink the same path the same
way). -/
theorem c1_remove_unlinks_rpath_of_any_row (rname : String) (s : CacheState) (fs : FS)
    (r : Resource) (e : FileEntry) (hfound : findByRname s rname = some r)
    (hl : fsLookup fs r.rpath = some e) (hd : e.deletable = true) :
    remove rname s fs =
      (.ok (), { s with resources := s.resources.filter (fun x => x.id ≠ r.id) },
        fsErase fs r.rpath) ∧
    fsExists (remove rname s fs).2.2 r.rpath = false := by
  have hex : fsExists fs r.rpath = true := by simp [fsExists, hl]
  have hrw : remove rname s fs =
      (.ok (), { s with resources := s.resources.filter (fun x => x.id ≠ r.id) },
        fsErase fs r.rpath) := by
    simp [BiocFileCache.remove, hfound, hex, BiocFileCache.unlink, hl, hd]
  exact ⟨hrw, by rw [hrw]; exact fsExists_fsErase_self fs r.rpath⟩

/-- C1, witness: the amended theorem applied to the concrete as-is row of
`sAsis`, whose rpath is the caller's original file. -/
theorem c1_remove_unlinks_rpath_of_any_row_witness :
    remove "a" sAsis fsAsis =
      (.ok (), { sAsis with resources := sAsis.resources.filter (fun x => x.id ≠ rAsis.id) },
        fsErase fsAsis "/data/orig.txt") ∧
    fsExists (remove "a" sAsis fsAsis).2.2 "/data/orig.txt" = false :=
  c1_remove_unlinks_rpath_of_any_row "a" sAsis fsAsis rAsis ⟨"/data/orig.txt", 7, true⟩
    (by decide) (by decide) (by decide)

/-- C2: with no cleanup_interval configured, cleanup — called explicitly —
returns 0 and removes nothing, for every state and filesystem; in particular
on `sExpired`, whose single row is expired at time 10, nothing is deleted.
The guard `if not any([self.config.cleanup_interval, self._should_cleanup()])`
(cache.py line 166) contradicts the claim and the method's own docstring
("If cleanup_interval is None, this method will still run if called
explicitly"). -/
theorem c2_cleanup_skipped_without_interval :
    (∀ (dir : String) (now : Nat) (s : CacheState) (fs : FS),
        cleanup ⟨dir, none⟩ now s fs = (0, s, fs)) ∧
    sExpired.resources.map (isExpired 10) = [true] ∧
    cleanup cfgC 10 sExpired fsExpired = (0, sExpired, fsExpired) :=
  ⟨fun _ _ _ _ => rfl, by decide, by decide⟩

/-- C3: the rname-validation call is commented out in the source (cache.py
line 275), so add accepts a name that fails the default naming pattern: with
the invalid name "bad name!" it succeeds and inserts the row instead of
raising InvalidNameError and leaving the cache untouched. -/
theorem c3_add_accepts_invalid_rname :
    validate_rname "bad name!" = false ∧
    isOkb (add cfgC "bad name!" "/src/file.txt" "local" "copy" none 1 "u1" true s0C fsSource).1 = true ∧
    (add cfgC "bad name!" "/src/file.txt" "local" "copy" none 1 "u1" true s0C fsSource).2.1.resources.map
        Resource.rname = ["bad name!"] := by decide

/-- C4: rid collision.  `generate_id` derives the rid from the current row
count ("BFC" + str(len+1)), so the sequence add "a", add "b", remove "a",
add "c" leaves two live rows ("b" and "c") both carrying rid "BFC2": the rids
of live rows are not pairwise distinct, contradicting the uniqueness the
claim (and the docstrings of generate_id and models.py) assert. -/
theorem c4_rid_collision :
    c4AfterAddC.2.1.resources.map Resource.rid = ["BFC2", "BFC2"] ∧
    ¬ (c4AfterAddC.2.1.resources.map Resource.rid).Nodup := by decide

/-- C5: in add, the row insert precedes any file transfer.  If the insert
commit fails (insertOk = false) the filesystem is untouched and no row is
kept; if the insert succeeds and the copy/move then fails, the just-inserted
row is deleted again and the storage failure is re-raised wrapped in
"Failed to add resource", so the registry holds no row for that rname and the
filesystem is unchanged. -/
theorem c5_add_insert_precedes_transfer (cfg : CacheConfig)
    (rname fpath rtype action : String) (expires : Option Nat) (now : Nat)
    (uuid : String) (s : CacheState) (fs : FS)
    (hfresh : findByRname s rname = none) (hweb : rtype ≠ "web") :
    add cfg rname fpath rtype action expires now uuid false s fs = (.error .dbError, s, fs) ∧
    (∀ e, copy_or_move fs fpath (addRpath cfg fpath action uuid) rname action = .error e →
      add cfg rname fpath rtype action expires now uuid true s fs =
        (.error (.addFailed e), s, fs)) := by
  constructor
  · simp [BiocFileCache.add, get_fresh rname now s fs hfresh, hweb]
  · intro e he
    simp [BiocFileCache.add, get_fresh rname now s fs hfresh, hweb, he]

/-- C5, witness: on an empty cache and empty filesystem, a failed insert
leaves everything unchanged, and with the insert succeeding the copy from the
missing source "/nosrc" fails and rolls the row back. -/
theorem c5_add_insert_precedes_transfer_witness :
    add cfgC "w" "/nosrc" "local" "copy" none 1 "u1" false s0C [] = (.error .dbError, s0C, []) ∧
    add cfgC "w" "/nosrc" "local" "copy" none 1 "u1" true s0C [] =
      (.error (.addFailed (.storageFailed "w" "/nosrc" "/cache/u1_nosrc")), s0C, []) := by
  have h := c5_add_insert_precedes_transfer cfgC "w" "/nosrc" "local" "copy" none 1 "u1" s0C []
    (by decide) (by decide)
  exact ⟨h.1, h.2 _ (by decide)⟩

/-- C6, counterexample: add on a duplicate rname does raise, but the
pre-existing row is not left unchanged: the duplicate check runs through
`self.get(rname)`, which commits a refreshed access_time (here 0 becomes 5)
before add raises. -/
theorem c6_add_duplicate_touches_row :
    (add cfgC "a" "/s/a" "local" "copy" none 5 "u9" true sDup fsDup).1 =
      .error (.resourceExists "a") ∧
    sDup.resources.map Resource.access_time = [0] ∧
    (add cfgC "a" "/s/a" "local" "copy" none 5 "u9" true sDup fsDup).2.1.resources.map
      Resource.access_time = [5] := by decide

/-- C6, amended: when a live row with the requested rname exists and its
backing file is present, add raises the duplicate-name error and never
redirects to update; the file set and the row are left unchanged except for
the row's access_time, which the duplicate-check lookup refreshes to the
current time. -/
theorem c6_add_duplicate_raises (cfg : CacheConfig) (rname fpath rtype action : String)
    (expires : Option Nat) (now : Nat) (uuid : String) (insertOk : Bool)
    (s : CacheState) (fs : FS) (r : Resource)
    (hfound : findByRname s rname = some r) (hex : fsExists fs r.rpath = true) :
    add cfg rname fpath rtype action expires now uuid insertOk s fs =
      (.error (.resourceExists rname),
        { s with resources := setAccessTime s.resources r.id now }, fs) := by
  simp [BiocFileCache.add, BiocFileCache.get, BiocFileCache.getLookup, hfound, hex]

/-- C6, witness: the amended theorem applied to the concrete duplicate-name
state `sDup`. -/
theorem c6_add_duplicate_raises_witness :
    add cfgC "a" "/s/a" "local" "copy" none 5 "u9" true sDup fsDup =
      (.error (.resourceExists "a"),
        { sDup with resources := setAccessTime sDup.resources rDup.id 5 }, fsDup) :=
  c6_add_duplicate_raises cfgC "a" "/s/a" "local" "copy" none 5 "u9" true sDup fsDup rDup
    (by decide) (by decide)

/-- C7, counterexample: purge(force=False) on a cache where the first file's
unlink succeeds and the second's fails: the transaction is rolled back (both
rows restored) but the first file is already gone, so neither arm of the
claimed dichotomy ("all rows and files gone" or "zero rows removed and file
set unchanged") holds. -/
theorem c7_purge_partial_failure :
    purge cfgC false 9 sPurge fsPurge =
      (.error (.purgeFailed (.purgeFileFailed "pb" (.permissionDenied "/cache/f2"))),
        sPurge, [⟨"/cache/f2", 2, false⟩]) ∧
    ¬ (((purge cfgC false 9 sPurge fsPurge).2.1.resources = [] ∧
          ∀ r ∈ sPurge.resources, fsExists (purge cfgC false 9 sPurge fsPurge).2.2 r.rpath = false) ∨
        ((purge cfgC false 9 sPurge fsPurge).2.1.resources = sPurge.resources ∧
          (purge cfgC false 9 sPurge fsPurge).2.2 = fsPurge)) := by decide

/-- C7, amended: purge with force=False either removes every row and every
backing file, or rolls the transaction back with zero rows removed — but in
the failure case the files unlinked before the first failure stay deleted:
the resulting file set is only a subset of the original, not equal to it. -/
theorem c7_purge_nonforce_dichotomy (cfg : CacheConfig) (now : Nat)
    (s : CacheState) (fs : FS) :
    (isOkb (purge cfg false now s fs).1 = true →
      (purge cfg false now s fs).2.1.resources = [] ∧
      ∀ r ∈ s.resources, fsExists (purge cfg false now s fs).2.2 r.rpath = false) ∧
    (isOkb (purge cfg false now s fs).1 = false →
      (purge cfg false now s fs).2.1.resources = s.resources ∧
      ∀ e ∈ (purge cfg false now s fs).2.2, e ∈ fs) := by
  cases h : purgeUnlinkAll s.resources fs with
  | ok fs1 =>
    have hp : purge cfg false now s fs =
        (.ok true, { s with resources := [], last_cleanup := now }, fs1) := by
      simp [BiocFileCache.purge, h]
    rw [hp]
    constructor
    · intro _
      exact ⟨rfl, fun r hr => purgeUnlinkAll_ok_removed _ _ _ h r hr⟩
    · intro hc
      simp [isOkb] at hc
  | error x =>
    obtain ⟨rn, e, fsPart⟩ := x
    have hp : purge cfg false now s fs =
        (.error (.purgeFailed (.purgeFileFailed rn e)), s, fsPart) := by
      simp [BiocFileCache.purge, h]
    rw [hp]
    constructor
    · intro hc
      simp [isOkb] at hc
    · intro _
      exact ⟨rfl, fun x hx => purgeUnlinkAll_error_subset _ _ _ _ _ h x hx⟩

/-- C7, witness: the success arm of the amended theorem on the two-row cache
with both backing files deletable: zero rows remain and both files are
gone. -/
theorem c7_purge_nonforce_dichotomy_witness :
    (purge cfgC false 9 sPurge fsPurgeOk).2.1.resources = [] ∧
    ∀ r ∈ sPurge.resources, fsExists (purge cfgC false 9 sPurge fsPurgeOk).2.2 r.rpath = false :=
  (c7_purge_nonforce_dichotomy cfgC 9 sPurge fsPurgeOk).1 (by decide)

/-- C8: given at least one of rname/rid, get returns None (no error) when no
row matches; when a row matches and its file never appears it raises the
timeout error carrying the rname argument and the 30-second default; when the
file exists it commits a refreshed access_time and returns the updated
(detached) row. -/
theorem c8_get_spec (rname? rid? : Option String) (now : Nat) (s : CacheState) (fs : FS)
    (h : rname?.isSome = true ∨ rid?.isSome = true) :
    (getLookup s rname? rid? = none → get rname? rid? now s fs = (.ok none, s)) ∧
    (∀ r, getLookup s rname? rid? = some r → fsExists fs r.rpath = false →
      get rname? rid? now s fs = (.error (.pathTimeout rname? 30), s)) ∧
    (∀ r, getLookup s rname? rid? = some r → fsExists fs r.rpath = true →
      get rname? rid? now s fs =
        (.ok (some { r with access_time := now }),
          { s with resources := setAccessTime s.resources r.id now })) := by
  have hcond : (rname?.isNone && rid?.isNone) = false := by
    rcases h with h | h <;> cases rname? <;> cases rid? <;> simp_all
  refine ⟨?_, ?_, ?_⟩
  · intro hnone
    simp [BiocFileCache.get, hcond, hnone]
  · intro r hr hex
    simp [BiocFileCache.get, hcond, hr, hex]
  · intro r hr hex
    simp [BiocFileCache.get, hcond, hr, hex]

/-- C8, witness: the three arms of the specification at concrete inputs on the
one-row cache `sGet`: a miss returns None; the hit with a missing file raises
the timeout naming "g" and 30 seconds; the hit with the file present refreshes
access_time from 2 to 5. -/
theorem c8_get_spec_witness :
    get (some "nope") none 5 sGet fsGet = (.ok none, sGet) ∧
    get (some "g") none 5 sGet [] = (.error (.pathTimeout (some "g") 30), sGet) ∧
    get (some "g") none 5 sGet fsGet =
      (.ok (some { rGet with access_time := 5 }),
        { sGet with resources := setAccessTime sGet.resources rGet.id 5 }) :=
  ⟨(c8_get_spec (some "nope") none 5 sGet fsGet (Or.inl rfl)).1 (by decide),
    (c8_get_spec (some "g") none 5 sGet [] (Or.inl rfl)).2.1 rGet (by decide) (by decide),
    (c8_get_spec (some "g") none 5 sGet fsGet (Or.inl rfl)).2.2 rGet (by decide) (by decide)⟩

/-- C9, counterexample: on a fresh rname with a nonexistent fpath, update
raises FileNotFoundError before touching anything, while add with the same
arguments inserts and rolls back a row and raises the wrapped storage
failure: the two calls do not have the same error behaviour. -/
theorem c9_update_add_error_mismatch :
    (update cfgC "a" "/missing" "copy" 1 "u1" true s0C []).1 =
      .error (.fileNotFound "/missing") ∧
    (add cfgC "a" "/missing" "relative" "copy" none 1 "u1" true s0C []).1 =
      .error (.addFailed (.storageFailed "a" "/missing" "/cache/u1_missing")) ∧
    (update cfgC "a" "/missing" "copy" 1 "u1" true s0C []).1 ≠
      (add cfgC "a" "/missing" "relative" "copy" none 1 "u1" true s0C []).1 := by decide

/-- C9, amended: when the source file exists, update on a nonexistent rname
is exactly add with the same arguments (rtype defaulting to "relative",
expires to None) — same result, same state, same filesystem; the equivalence
fails only for a missing source file, where the two raise different errors
while leaving the same (unchanged) state. -/
theorem c9_update_delegates_to_add (cfg : CacheConfig) (rname fpath action : String)
    (now : Nat) (uuid : String) (insertOk : Bool) (s : CacheState) (fs : FS)
    (hex : fsExists fs fpath = true) (hfresh : findByRname s rname = none) :
    update cfg rname fpath action now uuid insertOk s fs =
      add cfg rname fpath "relative" action none now uuid insertOk s fs := by
  simp [BiocFileCache.update, hex, hfresh]

/-- C9, witness: the delegation equation at a concrete fresh name and an
existing source file. -/
theorem c9_update_delegates_to_add_witness :
    update cfgC "n" "/src/file.txt" "copy" 1 "u7" true s0C fsSource =
      add cfgC "n" "/src/file.txt" "relative" "copy" none 1 "u7" true s0C fsSource :=
  c9_update_delegates_to_add cfgC "n" "/src/file.txt" "copy" 1 "u7" true s0C fsSource
    (by decide) (by decide)

/-- C10, counterexample: add_metadata also errors when the key IS already
present — the attempted duplicate insert violates the primary-key constraint
on metadata.key — so "raises an error exactly when the key is not already
present" fails in the key-present direction (the call errors either way). -/
theorem c10_add_metadata_existing_key_errors :
    check_metadata_key sMeta "k" = true ∧
    add_metadata sMeta "k" "x" = .error (.uniqueViolation "k") := by decide

/-- C10, amended: add_metadata raises its explicit error exactly when the key
is absent, attempts the insertion only when the key already exists (which then
violates the key's uniqueness constraint), and therefore never succeeds — in
particular a fresh key can never be added through it. -/
theorem c10_add_metadata_never_succeeds (s : CacheState) (k v : String) :
    (check_metadata_key s k = false → add_metadata s k v = .error (.metadataKeyAbsent k)) ∧
    (check_metadata_key s k = true → add_metadata s k v = insertMetadata s k v ∧
      add_metadata s k v = .error (.uniqueViolation k)) ∧
    (∀ s', add_metadata s k v ≠ .ok s') := by
  refine ⟨?_, ?_, ?_⟩
  · intro h
    simp [BiocFileCache.add_metadata, h]
  · intro h
    exact ⟨by simp [BiocFileCache.add_metadata, h],
      by simp [BiocFileCache.add_metadata, BiocFileCache.insertMetadata, h]⟩
  · intro s' hc
    by_cases h : check_metadata_key s k = true
    · simp [BiocFileCache.add_metadata, BiocFileCache.insertMetadata, h] at hc
    · simp [BiocFileCache.add_metadata, h] at hc

/-- C10, witness: adding the fresh key "language" fails with the explicit
error of the key-absent branch. -/
theorem c10_add_metadata_never_succeeds_witness :
    add_metadata s0C "language" "python" = .error (.metadataKeyAbsent "language") :=
  (c10_add_metadata_never_succeeds s0C "language" "python").1 (by decide)

end BiocFileCache
